import Mathlib

/-!
Shallow embedding of the forester epoch-lifecycle engine
(`src/forester/src/epoch_manager.rs` and `src/forester/src/rollover/operations.rs`).

External effects (RPC calls, the indexer, the pub/sub feed, randomness) are
modelled as environment records supplying the outcome of each external call;
the control flow, arithmetic and data handling of the source functions are
translated directly.  Machine integers are modelled as `Nat` with explicit
reductions modulo `2 ^ w` at the places where the source casts or can wrap.
-/

namespace Forester

/-- Error kinds of the forester.  The `ForesterError` enum itself lives in
`src/forester/src/errors.rs`, which is not part of the sources under review;
the constructor list is modelled from the spec (§7).  The code under review
constructs only the `custom` and `notEligible` variants. -/
inductive ForesterError where
  | rpcFailure
  | indexerFailure
  | notEligible
  | notInActivePhase
  | treeNotFound
  | registrationTooLate
  | timeout
  | cancelled
  | custom (msg : String)
deriving DecidableEq, Repr

/-- `u64::MAX`, the sentinel marking a tree that has not been rolled over. -/
def u64Max : Nat := 2 ^ 64 - 1

/-- `u32::MAX`, the saturation point of `2u32.saturating_pow`. -/
def u32Max : Nat := 2 ^ 32 - 1

/-- The rollover-relevant part of `account.metadata.rollover_metadata`
of a state or address Merkle-tree account. -/
structure RolloverMetadata where
  rolledover_slot : Nat
  rollover_threshold : Nat
deriving DecidableEq, Repr

/-- `TreeType` from `light_test_utils::forester_epoch`. -/
inductive TreeType where
  | State
  | Address
deriving DecidableEq, Repr

/-- Environment for `is_tree_ready_for_rollover`: the account data and the
on-chain tree `next_index` that the two RPC fetches in the source return
for the given tree pubkey (one pair per tree type branch). -/
structure RolloverEnv where
  stateRolloverMetadata : RolloverMetadata
  stateNextIndex : Nat
  addressRolloverMetadata : RolloverMetadata
  addressNextIndex : Nat
deriving DecidableEq, Repr

/-- The shared body of both branches of `is_tree_ready_for_rollover`
(`rollover/operations.rs` lines 50-98): not ready if the account is already
rolled over, otherwise ready iff `next_index >= (1 << 26) * threshold / 100`.
The `u64` product is reduced modulo `2 ^ 64`. -/
def rolloverReadyCheck (md : RolloverMetadata) (nextIndex : Nat) : Bool :=
  let is_already_rolled_over := md.rolledover_slot != u64Max
  if is_already_rolled_over then
    false
  else
    let height : Nat := 26
    let threshold := 2 ^ height * md.rollover_threshold % 2 ^ 64 / 100
    decide (nextIndex ≥ threshold)

/-- `is_tree_ready_for_rollover` (`rollover/operations.rs` lines 41-100);
the two match arms perform the same check on the account of the
corresponding tree type. -/
def is_tree_ready_for_rollover (env : RolloverEnv) (tree_type : TreeType) : Bool :=
  match tree_type with
  | TreeType.State => rolloverReadyCheck env.stateRolloverMetadata env.stateNextIndex
  | TreeType.Address => rolloverReadyCheck env.addressRolloverMetadata env.addressNextIndex

/-- The rollover metadata the source reads for a given tree type. -/
def RolloverEnv.metadataFor (env : RolloverEnv) : TreeType → RolloverMetadata
  | TreeType.State => env.stateRolloverMetadata
  | TreeType.Address => env.addressRolloverMetadata

/-- The tree `next_index` the source reads for a given tree type. -/
def RolloverEnv.nextIndexFor (env : RolloverEnv) : TreeType → Nat
  | TreeType.State => env.stateNextIndex
  | TreeType.Address => env.addressNextIndex

theorem rolloverReadyCheck_iff (md : RolloverMetadata) (nextIndex : Nat)
    (hpct : md.rollover_threshold ≤ 100) :
    rolloverReadyCheck md nextIndex = true ↔
      (md.rolledover_slot = u64Max ∧ 2 ^ 26 * md.rollover_threshold / 100 ≤ nextIndex) := by
  have hlt : 2 ^ 26 * md.rollover_threshold < 2 ^ 64 := by
    calc 2 ^ 26 * md.rollover_threshold ≤ 2 ^ 26 * 100 := by
          exact Nat.mul_le_mul_left _ hpct
      _ < 2 ^ 64 := by norm_num
  unfold rolloverReadyCheck
  norm_num at hlt
  by_cases h : md.rolledover_slot = u64Max
  · simp [h]
    rw [Nat.mod_eq_of_lt (by omega)]
  · simp [h, bne_iff_ne]

/-- Claim C2: `is_tree_ready_for_rollover` returns `true` iff the tree
account's `rolledover_slot` equals the `u64::MAX` sentinel and the tree's
`next_index` is at least `(2 ^ 26 * rollover_threshold_pct) / 100`, for both
the State and the Address branch; in particular it returns `false` whenever
`rolledover_slot` differs from the sentinel.  The threshold is a percentage,
so it is at most 100. -/
theorem c2_theorem (env : RolloverEnv) (tree_type : TreeType)
    (hpct : (env.metadataFor tree_type).rollover_threshold ≤ 100) :
    is_tree_ready_for_rollover env tree_type = true ↔
      ((env.metadataFor tree_type).rolledover_slot = u64Max ∧
        2 ^ 26 * (env.metadataFor tree_type).rollover_threshold / 100 ≤
          env.nextIndexFor tree_type) := by
  cases tree_type <;>
    simpa [is_tree_ready_for_rollover, RolloverEnv.metadataFor, RolloverEnv.nextIndexFor]
      using rolloverReadyCheck_iff _ _ hpct

/-- Witness for C2 at a concrete input: the S5 scenario of the spec, a tree
with `rollover_threshold = 95` whose `next_index` is 96% of capacity, not yet
rolled over. -/
theorem c2_witness :
    is_tree_ready_for_rollover
        { stateRolloverMetadata := { rolledover_slot := 2 ^ 64 - 1, rollover_threshold := 95 },
          stateNextIndex := 2 ^ 26 * 96 / 100,
          addressRolloverMetadata := { rolledover_slot := 0, rollover_threshold := 95 },
          addressNextIndex := 0 } TreeType.State = true := by
  have h := (c2_theorem
      { stateRolloverMetadata := { rolledover_slot := 2 ^ 64 - 1, rollover_threshold := 95 },
        stateNextIndex := 2 ^ 26 * 96 / 100,
        addressRolloverMetadata := { rolledover_slot := 0, rollover_threshold := 95 },
        addressNextIndex := 0 } TreeType.State (by norm_num [RolloverEnv.metadataFor]))
  exact h.mpr (by constructor <;> norm_num [RolloverEnv.metadataFor, RolloverEnv.nextIndexFor, u64Max])

deriving instance DecidableEq for Except

/-- `QueueItemData` from `queue_helpers`: a queued maintenance action.  The
32-byte hash is abstracted to a `Nat`. -/
structure QueueItemData where
  hash : Nat
  index : Nat
deriving DecidableEq, Repr

/-- `TreeAccounts` from `light_test_utils::forester_epoch`; pubkeys are
abstracted to `Nat`. -/
structure TreeAccounts where
  merkle_tree : Nat
  queue : Nat
  tree_type : TreeType
deriving DecidableEq, Repr

/-- `WorkItem` (`epoch_manager.rs` lines 52-56). -/
structure WorkItem where
  tree_account : TreeAccounts
  queue_item_data : QueueItemData
deriving DecidableEq, Repr

/-- The failure modes of `process_transaction_batch` (`epoch_manager.rs`
lines 905-940): an RPC failure surfaced through `?`, or the explicit
`Custom("Not in active phase")` error.  That function never produces
`ForesterError::NotEligible`. -/
inductive SubmitError where
  | rpcError (msg : String)
  | notInActivePhaseError
deriving DecidableEq, Repr

/-- Conversion of a `process_transaction_batch` failure into the
`ForesterError` the caller sees. -/
def SubmitError.toForesterError : SubmitError → ForesterError
  | SubmitError.rpcError msg => ForesterError.custom msg
  | SubmitError.notInActivePhaseError => ForesterError.custom "Not in active phase"

/-- Environment of one `process_transaction_batch_with_retry` call, indexed
by the loop iteration (the current value of `retries`): the outcome of the
`check_eligibility` call, the outcome of the `process_transaction_batch`
call, and the jitter value drawn by `rand::thread_rng().gen_range(0..=50)`.
Signatures are abstracted to `Nat`. -/
structure BatchEnv where
  eligibility : Nat → Except ForesterError Unit
  submit : Nat → Except SubmitError Nat
  jitter : Nat → Nat

/-- Observable outcome of one `process_transaction_batch_with_retry` call:
how many times `check_eligibility` ran, how many transactions were submitted
(`process_transaction_batch` calls), the sleeps performed (in milliseconds,
in order), how many times `increment_processed_items_count` ran, and the
returned value. -/
structure BatchResult where
  eligChecks : Nat := 0
  submits : Nat := 0
  sleeps : List Nat := []
  increments : Nat := 0
  result : Except ForesterError (Option Nat)
deriving DecidableEq, Repr

/-- The backoff delay in milliseconds before retry number `retries + 1`:
`BASE_RETRY_DELAY.saturating_mul(2u32.saturating_pow(retries))` with
`BASE_RETRY_DELAY = 100 ms`.  The power saturates at `u32::MAX`; the
`Duration` multiplication cannot saturate for these magnitudes. -/
def retryDelayMs (retries : Nat) : Nat := 100 * min (2 ^ retries) u32Max

/-- The retry loop of `process_transaction_batch_with_retry`
(`epoch_manager.rs` lines 848-902).  The second `Nat` argument is the
`retries` counter; the loop runs at most `max_retries + 1` iterations, so
the structurally decreasing `fuel` argument, instantiated with
`max_retries + 1` at entry, is never exhausted (each recursive call has
`retries < max_retries`). -/
def runBatchLoop (max_retries : Nat) (env : BatchEnv) : Nat → Nat → BatchResult
  | 0, _ => { result := Except.error (ForesterError.custom "unreachable: out of fuel") }
  | fuel + 1, retries =>
    match env.eligibility retries with
    | Except.ok _ =>
      match env.submit retries with
      | Except.ok signature =>
        { eligChecks := 1, submits := 1, increments := 1,
          result := Except.ok (some signature) }
      | Except.error e =>
        if retries ≥ max_retries then
          { eligChecks := 1, submits := 1, result := Except.error e.toForesterError }
        else
          let rest := runBatchLoop max_retries env fuel (retries + 1)
          { eligChecks := 1 + rest.eligChecks
            submits := 1 + rest.submits
            sleeps := (retryDelayMs retries + env.jitter retries) :: rest.sleeps
            increments := rest.increments
            result := rest.result }
    | Except.error e =>
      if e = ForesterError.notEligible then
        { eligChecks := 1, result := Except.ok none }
      else
        { eligChecks := 1, result := Except.error e }

/-- `process_transaction_batch_with_retry` (`epoch_manager.rs` lines
831-903): an empty `indexer_chunk` fails immediately with
`Custom("Empty indexer chunk")`; otherwise the retry loop starts with
`retries = 0`. -/
def process_transaction_batch_with_retry (max_retries : Nat) (env : BatchEnv)
    (indexer_chunk : List WorkItem) : BatchResult :=
  match indexer_chunk.head? with
  | none => { result := Except.error (ForesterError.custom "Empty indexer chunk") }
  | some _work_item => runBatchLoop max_retries env (max_retries + 1) 0

/-- The per-epoch processed-items map (`processed_items_per_epoch_count`),
modelled as a partial map from epoch to counter value. -/
def increment_processed_items_count (counts : Nat → Option Nat) (epoch : Nat) :
    Nat → Option Nat :=
  fun e => if e = epoch then some ((counts epoch).getD 0 + 1) else counts e

/-- `get_processed_items_count` (`epoch_manager.rs` lines 178-183): a missing
entry reads as 0. -/
def get_processed_items_count (counts : Nat → Option Nat) (epoch : Nat) : Nat :=
  (counts epoch).getD 0

theorem runBatchLoop_increments (m : Nat) (env : BatchEnv) :
    ∀ fuel retries, (runBatchLoop m env fuel retries).increments =
      match (runBatchLoop m env fuel retries).result with
      | Except.ok (some _) => 1
      | _ => 0 := by
  intro fuel
  induction fuel with
  | zero => intro retries; rfl
  | succ fuel ih =>
    intro retries
    unfold runBatchLoop
    split
    · split
      · rfl
      · split
        · rfl
        · exact ih (retries + 1)
    · split
      · rfl
      · rfl

theorem runBatchLoop_error_not_notEligible (m : Nat) (env : BatchEnv) :
    ∀ fuel retries e, (runBatchLoop m env fuel retries).result = Except.error e →
      e ≠ ForesterError.notEligible := by
  intro fuel
  induction fuel with
  | zero =>
    intro retries e h
    simp [runBatchLoop] at h
    subst h
    simp
  | succ fuel ih =>
    intro retries e h
    unfold runBatchLoop at h
    revert h
    split
    · split
      · intro h; cases h
      · split
        · intro h
          cases h
          rename_i se _ _
          cases se <;> simp [SubmitError.toForesterError]
        · intro h
          exact ih (retries + 1) e h
    · split
      · intro h; cases h
      · intro h
        cases h
        assumption

theorem runBatchLoop_all_fail (m : Nat) (env : BatchEnv) (errOf : Nat → SubmitError)
    (helig : ∀ i, env.eligibility i = Except.ok ())
    (hsub : ∀ i, env.submit i = Except.error (errOf i)) :
    ∀ fuel retries, retries ≤ m → m + 1 - retries ≤ fuel →
      (runBatchLoop m env fuel retries).sleeps =
        (List.range (m - retries)).map
          (fun i => retryDelayMs (retries + i) + env.jitter (retries + i)) ∧
      (runBatchLoop m env fuel retries).result = Except.error (errOf m).toForesterError ∧
      (runBatchLoop m env fuel retries).eligChecks = m - retries + 1 := by
  intro fuel
  induction fuel with
  | zero => intro retries h1 h2; omega
  | succ fuel ih =>
    intro retries h1 h2
    unfold runBatchLoop
    rw [helig retries, hsub retries]
    by_cases hr : retries ≥ m
    · have hrm : retries = m := by omega
      subst hrm
      simp
    · obtain ⟨ihs, ihr, ihe⟩ := ih (retries + 1) (by omega) (by omega)
      simp only [if_neg hr]
      refine ⟨?_, ?_, ?_⟩
      · show (retryDelayMs retries + env.jitter retries) ::
            (runBatchLoop m env fuel (retries + 1)).sleeps = _
        rw [ihs]
        have hsplit : m - retries = (m - (retries + 1)) + 1 := by omega
        rw [hsplit, List.range_succ_eq_map, List.map_cons, List.map_map]
        refine congrArg₂ _ (by simp) ?_
        apply List.map_congr_left
        intro i _
        have harg : retries + (i + 1) = retries + 1 + i := by omega
        simp [Function.comp, harg]
      · show (runBatchLoop m env fuel (retries + 1)).result = _
        exact ihr
      · show 1 + (runBatchLoop m env fuel (retries + 1)).eligChecks = _
        omega

theorem get_processed_le_increment (counts : Nat → Option Nat) (a epoch : Nat) :
    get_processed_items_count counts epoch ≤
      get_processed_items_count (increment_processed_items_count counts a) epoch := by
  unfold get_processed_items_count increment_processed_items_count
  by_cases h : epoch = a
  · subst h; simp
  · simp [h]

theorem get_processed_le_foldl (epochs : List Nat) :
    ∀ counts epoch, get_processed_items_count counts epoch ≤
      get_processed_items_count (epochs.foldl increment_processed_items_count counts) epoch := by
  induction epochs with
  | nil => intro counts epoch; simp
  | cons a l ih =>
    intro counts epoch
    calc get_processed_items_count counts epoch
        ≤ get_processed_items_count (increment_processed_items_count counts a) epoch :=
          get_processed_le_increment counts a epoch
      _ ≤ _ := ih _ epoch

/-- A work item used to instantiate theorems on concrete inputs. -/
def demoWorkItem : WorkItem :=
  { tree_account := { merkle_tree := 1, queue := 2, tree_type := TreeType.State },
    queue_item_data := { hash := 3, index := 4 } }

/-- Claim C3 (amended): with a non-empty chunk, when every eligibility check
passes and every submission fails, the task sleeps
`100 * min (2 ^ k) u32Max + jitter k` milliseconds after the k-th consecutive
failure (`k = 0 .. max_retries - 1`, the doubling factor saturating at
`u32::MAX`, hence exactly `100 * 2 ^ k` for `k ≤ 31`), with the jitter drawn
from `[0, 50]`, re-loops from the eligibility check (`max_retries + 1` checks
in total), and after the failure with `retries = max_retries` propagates the
error to the caller instead of sleeping again. -/
theorem c3_amended_theorem (max_retries : Nat) (env : BatchEnv) (errOf : Nat → SubmitError)
    (chunk : List WorkItem) (hchunk : chunk ≠ [])
    (helig : ∀ i, env.eligibility i = Except.ok ())
    (hsub : ∀ i, env.submit i = Except.error (errOf i))
    (hjit : ∀ i, env.jitter i ≤ 50) :
    (process_transaction_batch_with_retry max_retries env chunk).sleeps =
      (List.range max_retries).map (fun k => 100 * min (2 ^ k) u32Max + env.jitter k) ∧
    (∀ k, k < max_retries → k ≤ 31 →
      (process_transaction_batch_with_retry max_retries env chunk).sleeps.getD k 0 =
        100 * 2 ^ k + env.jitter k ∧ env.jitter k ≤ 50) ∧
    (process_transaction_batch_with_retry max_retries env chunk).result =
      Except.error (errOf max_retries).toForesterError ∧
    (process_transaction_batch_with_retry max_retries env chunk).eligChecks =
      max_retries + 1 := by
  obtain ⟨a, l, rfl⟩ : ∃ a l, chunk = a :: l := by
    cases chunk with
    | nil => exact absurd rfl hchunk
    | cons a l => exact ⟨a, l, rfl⟩
  have hrun := runBatchLoop_all_fail max_retries env errOf helig hsub
    (max_retries + 1) 0 (Nat.zero_le _) (by omega)
  have hentry : process_transaction_batch_with_retry max_retries env (a :: l) =
      runBatchLoop max_retries env (max_retries + 1) 0 := rfl
  rw [hentry]
  obtain ⟨hs, hr, he⟩ := hrun
  simp only [Nat.sub_zero, Nat.zero_add] at hs he
  refine ⟨by rw [hs]; rfl, ?_, hr, he⟩
  intro k hk hk31
  refine ⟨?_, hjit k⟩
  rw [hs]
  have hget : ((List.range max_retries).map
      (fun i => retryDelayMs i + env.jitter i)).getD k 0 =
      retryDelayMs k + env.jitter k := by
    rw [List.getD_eq_getElem?_getD, List.getElem?_map, List.getElem?_range hk]
    rfl
  rw [hget]
  have hmin : min (2 ^ k) u32Max = 2 ^ k := by
    apply Nat.min_eq_left
    calc (2 : Nat) ^ k ≤ 2 ^ 31 := Nat.pow_le_pow_right (by norm_num) hk31
      _ ≤ u32Max := by norm_num [u32Max]
  rw [retryDelayMs, hmin]

/-- Environment for the C3 counterexample: every eligibility check passes,
every submission fails, the drawn jitter is 0. -/
def c3CounterexampleEnv : BatchEnv :=
  { eligibility := fun _ => Except.ok (),
    submit := fun _ => Except.error (SubmitError.rpcError "rpc failure"),
    jitter := fun _ => 0 }

/-- C3 counterexample: with `max_retries = 33` and every submission failing,
the sleep after the failure with k = 32 (k ranges over 0 .. max_retries - 1 =
0 .. 32 in the claim) lasts `100 * (2 ^ 32 - 1)` ms, because
`2u32.saturating_pow(32)` saturates at `u32::MAX`; even increased by the
maximal jitter 50 this stays strictly below `100 * 2 ^ 32`, the smallest
value the claimed delay `100 * 2 ^ k + jitter` can take at k = 32 (here the
drawn jitter is 0). -/
theorem c3_counterexample :
    (process_transaction_batch_with_retry 33 c3CounterexampleEnv
        [demoWorkItem]).sleeps.getD 32 0 = 100 * (2 ^ 32 - 1) ∧
    100 * (2 ^ 32 - 1) + 50 < 100 * 2 ^ 32 := by
  constructor
  · have hrun := runBatchLoop_all_fail 33 c3CounterexampleEnv
      (fun _ => SubmitError.rpcError "rpc failure") (fun i => rfl) (fun i => rfl)
      34 0 (by omega) (by omega)
    have hentry : process_transaction_batch_with_retry 33 c3CounterexampleEnv
        [demoWorkItem] = runBatchLoop 33 c3CounterexampleEnv 34 0 := rfl
    rw [hentry, hrun.1]
    rfl
  · norm_num

/-- Witness for C3 at a concrete input: `max_retries = 2`, every submission
failing, jitter 7; the sleeps are 107 ms and 207 ms and the error is
propagated after the third failure. -/
theorem c3_witness :
    (process_transaction_batch_with_retry 2
        { eligibility := fun _ => Except.ok (),
          submit := fun _ => Except.error (SubmitError.rpcError "boom"),
          jitter := fun _ => 7 } [demoWorkItem]).sleeps = [107, 207] ∧
    (process_transaction_batch_with_retry 2
        { eligibility := fun _ => Except.ok (),
          submit := fun _ => Except.error (SubmitError.rpcError "boom"),
          jitter := fun _ => 7 } [demoWorkItem]).result =
      Except.error (ForesterError.custom "boom") := by
  have h := c3_amended_theorem 2
    { eligibility := fun _ => Except.ok (),
      submit := fun _ => Except.error (SubmitError.rpcError "boom"),
      jitter := fun _ => 7 } (fun _ => SubmitError.rpcError "boom") [demoWorkItem]
    (by simp) (fun i => rfl) (fun i => rfl) (fun i => by norm_num)
  exact ⟨by rw [h.1]; rfl, h.2.2.1⟩

/-- Claim C4: with a non-empty chunk, a `NotEligible` eligibility result at
the first check makes the call return `Ok(None)` with no transaction
submitted and no counter increment; any other eligibility error is returned
as an error (still without submitting); and an error returned by the call is
never `NotEligible`. -/
theorem c4_theorem (m : Nat) (env : BatchEnv) (chunk : List WorkItem)
    (hchunk : chunk ≠ []) :
    (env.eligibility 0 = Except.error ForesterError.notEligible →
      (process_transaction_batch_with_retry m env chunk).result = Except.ok none ∧
      (process_transaction_batch_with_retry m env chunk).submits = 0 ∧
      (process_transaction_batch_with_retry m env chunk).increments = 0) ∧
    (∀ e, env.eligibility 0 = Except.error e → e ≠ ForesterError.notEligible →
      (process_transaction_batch_with_retry m env chunk).result = Except.error e ∧
      (process_transaction_batch_with_retry m env chunk).submits = 0) ∧
    (∀ e, (process_transaction_batch_with_retry m env chunk).result = Except.error e →
      e ≠ ForesterError.notEligible) := by
  obtain ⟨a, l, rfl⟩ : ∃ a l, chunk = a :: l := by
    cases chunk with
    | nil => exact absurd rfl hchunk
    | cons a l => exact ⟨a, l, rfl⟩
  have hentry : process_transaction_batch_with_retry m env (a :: l) =
      runBatchLoop m env (m + 1) 0 := rfl
  refine ⟨?_, ?_, ?_⟩
  · intro h0
    rw [hentry]
    unfold runBatchLoop
    rw [h0]
    simp
  · intro e h0 hne
    rw [hentry]
    unfold runBatchLoop
    rw [h0]
    simp [hne]
  · intro e h
    rw [hentry] at h
    exact runBatchLoop_error_not_notEligible m env (m + 1) 0 e h

/-- Witness for C4 at a concrete input: an environment whose first
eligibility check yields `NotEligible`. -/
theorem c4_witness :
    (process_transaction_batch_with_retry 3
        { eligibility := fun _ => Except.error ForesterError.notEligible,
          submit := fun _ => Except.ok 9,
          jitter := fun _ => 0 } [demoWorkItem]).result = Except.ok none ∧
    (process_transaction_batch_with_retry 3
        { eligibility := fun _ => Except.error ForesterError.notEligible,
          submit := fun _ => Except.ok 9,
          jitter := fun _ => 0 } [demoWorkItem]).submits = 0 := by
  have h := (c4_theorem 3
    { eligibility := fun _ => Except.error ForesterError.notEligible,
      submit := fun _ => Except.ok 9,
      jitter := fun _ => 0 } [demoWorkItem] (by simp)).1 rfl
  exact ⟨h.1, h.2.1⟩

/-- Claim C5: one call of `process_transaction_batch_with_retry` increments
the per-epoch processed counter exactly once when it returns `Ok(Some _)`,
and never when it returns `Ok(None)` or an error; and the counter read by
`get_processed_items_count` is monotonically non-decreasing under any
sequence of increments. -/
theorem c5_theorem (m : Nat) (env : BatchEnv) (chunk : List WorkItem)
    (counts : Nat → Option Nat) (epochs : List Nat) (epoch : Nat) :
    (∀ s, (process_transaction_batch_with_retry m env chunk).result =
        Except.ok (some s) →
      (process_transaction_batch_with_retry m env chunk).increments = 1) ∧
    ((process_transaction_batch_with_retry m env chunk).result = Except.ok none →
      (process_transaction_batch_with_retry m env chunk).increments = 0) ∧
    (∀ e, (process_transaction_batch_with_retry m env chunk).result = Except.error e →
      (process_transaction_batch_with_retry m env chunk).increments = 0) ∧
    get_processed_items_count counts epoch ≤
      get_processed_items_count (epochs.foldl increment_processed_items_count counts)
        epoch := by
  have hmain : (process_transaction_batch_with_retry m env chunk).increments =
      match (process_transaction_batch_with_retry m env chunk).result with
      | Except.ok (some _) => 1
      | _ => 0 := by
    cases chunk with
    | nil => rfl
    | cons a l =>
      have hentry : process_transaction_batch_with_retry m env (a :: l) =
          runBatchLoop m env (m + 1) 0 := rfl
      rw [hentry]
      exact runBatchLoop_increments m env (m + 1) 0
  refine ⟨?_, ?_, ?_, get_processed_le_foldl epochs counts epoch⟩
  · intro s h
    rw [hmain, h]
  · intro h
    rw [hmain, h]
  · intro e h
    rw [hmain, h]

/-- Witness for C5 at a concrete input: a first-attempt success increments
the counter exactly once. -/
theorem c5_witness :
    (process_transaction_batch_with_retry 3
        { eligibility := fun _ => Except.ok (),
          submit := fun _ => Except.ok 42,
          jitter := fun _ => 0 } [demoWorkItem]).increments = 1 ∧
    get_processed_items_count (fun _ => none) 5 ≤
      get_processed_items_count
        ([5, 5, 7].foldl increment_processed_items_count (fun _ => none)) 5 := by
  have h := c5_theorem 3
    { eligibility := fun _ => Except.ok (),
      submit := fun _ => Except.ok 42,
      jitter := fun _ => 0 } [demoWorkItem] (fun _ => none) [5, 5, 7] 5
  exact ⟨h.1 42 rfl, h.2.2.2⟩

/-- Claim C10: an empty work-item chunk makes
`process_transaction_batch_with_retry` fail immediately with
`Custom("Empty indexer chunk")`: no eligibility check, no submission, no
sleep, no counter increment. -/
theorem c10_theorem (m : Nat) (env : BatchEnv) :
    process_transaction_batch_with_retry m env [] =
      { eligChecks := 0, submits := 0, sleeps := [], increments := 0,
        result := Except.error (ForesterError.custom "Empty indexer chunk") } := rfl

/-- The phase boundaries of one epoch as produced by `get_epoch_phases`
(external `light_test_utils` crate); each phase is a `[start, end)` slot
range. -/
structure EpochPhases where
  registrationStart : Nat
  registrationEnd : Nat
  activeStart : Nat
  activeEnd : Nat
  reportWorkStart : Nat
deriving DecidableEq, Repr

/-- The fields of the on-chain `ForesterEpochPda` consumed by
`check_eligibility`: the active-phase start slot and the light-slot length
used by `get_current_light_slot`. -/
structure ForesterEpochPda where
  epoch_active_phase_start_slot : Nat
  slot_length : Nat
deriving DecidableEq, Repr

/-- `TreeForesterSchedule` from `light_test_utils::forester_epoch`: the
per-light-slot eligibility bitmap of this forester for one tree. -/
structure TreeForesterSchedule where
  tree_accounts : TreeAccounts
  slots : List Bool
deriving DecidableEq, Repr

/-- `ForesterEpochInfo`: the per-epoch working state of a controller. -/
structure ForesterEpochInfo where
  epochNumber : Nat
  phases : EpochPhases
  epoch_pda : ForesterEpochPda
  trees : List TreeForesterSchedule
deriving DecidableEq, Repr

/-- Modelled from the spec: `ForesterEpochPda::get_current_light_slot` lives
in the external `light_registry` crate, not under the sources reviewed here.
Spec §4.5 defines `light_slot = (current_slot - active.start) /
light_slot_length`; a slot before the active-phase start has no light slot
and yields the error that `check_eligibility` wraps into a `Custom` error. -/
def ForesterEpochPda.get_current_light_slot (pda : ForesterEpochPda)
    (current_slot : Nat) : Except String Nat :=
  if current_slot < pda.epoch_active_phase_start_slot then
    Except.error "current slot is before the active phase start"
  else
    Except.ok ((current_slot - pda.epoch_active_phase_start_slot) / pda.slot_length)

/-- Modelled from the spec: `TreeForesterSchedule::is_eligible` lives in the
external `light_test_utils` crate.  Spec §4.5: look up
`tree_schedule.slots[light_slot]`; a `light_slot` out of range of the
schedule is not eligible. -/
def TreeForesterSchedule.is_eligible (ts : TreeForesterSchedule)
    (light_slot : Nat) : Bool :=
  ts.slots.getD light_slot false

/-- Environment of one `check_eligibility` call: the slot returned by
`rpc.get_slot()`, the result of the `ForesterEpochPda` account fetch, and
whether debug-level logging is enabled at runtime (the `log` crate's
`debug!` macros evaluate their arguments only in that case). -/
structure EligibilityEnv where
  current_slot : Nat
  pdaFetch : Except String (Option ForesterEpochPda)
  debugLoggingEnabled : Bool

/-- The outcome of a `check_eligibility` call, including the possibility of
a Rust panic raised while evaluating a `debug!` argument. -/
inductive EligibilityOutcome where
  | result (r : Except ForesterError Unit)
  | indexPanic
deriving DecidableEq, Repr

/-- `check_eligibility` (`epoch_manager.rs` lines 786-829): fetch the
forester epoch PDA, compute the current light slot, locate the tree's
schedule, and answer `Ok` when eligible and `Err(NotEligible)` otherwise;
failures of the intermediate steps become `Custom` errors.  Before calling
`is_eligible`, the source logs
`debug!("tree_schedule.slots[{}] = {:?}", light_slot,
tree_schedule.slots[light_slot as usize])` (lines 820-823); when
debug-level logging is enabled this unchecked `Vec` indexing panics for a
light slot out of range of the schedule. -/
def check_eligibility (env : EligibilityEnv) (registration_info : ForesterEpochInfo)
    (tree_account : TreeAccounts) : EligibilityOutcome :=
  match env.pdaFetch with
  | Except.error e => EligibilityOutcome.result (Except.error (ForesterError.custom e))
  | Except.ok none =>
    EligibilityOutcome.result
      (Except.error (ForesterError.custom "Forester epoch PDA fetching error"))
  | Except.ok (some forester_epoch_pda) =>
    match forester_epoch_pda.get_current_light_slot env.current_slot with
    | Except.error e =>
      EligibilityOutcome.result
        (Except.error (ForesterError.custom ("Failed to get current light slot: " ++ e)))
    | Except.ok light_slot =>
      match registration_info.trees.find?
          (fun ts => decide (ts.tree_accounts = tree_account)) with
      | none =>
        EligibilityOutcome.result
          (Except.error (ForesterError.custom "No tree schedule found for the current tree"))
      | some tree_schedule =>
        if env.debugLoggingEnabled && decide (tree_schedule.slots.length ≤ light_slot) then
          EligibilityOutcome.indexPanic
        else if tree_schedule.is_eligible light_slot then
          EligibilityOutcome.result (Except.ok ())
        else
          EligibilityOutcome.result (Except.error ForesterError.notEligible)

/-- The externally observable actions of one epoch controller, in order. -/
inductive Event where
  | registrationSubmitted (epoch : Nat)
  | finalizeRegistrationSubmitted (epoch : Nat)
  | activeWorkPerformed (epoch : Nat)
  | reportWorkSubmitted (epoch : Nat)
  | workReportSent (epoch : Nat) (processedItems : Nat)
deriving DecidableEq, Repr

/-- The epoch an event belongs to. -/
def Event.epochOf : Event → Nat
  | Event.registrationSubmitted e => e
  | Event.finalizeRegistrationSubmitted e => e
  | Event.activeWorkPerformed e => e
  | Event.reportWorkSubmitted e => e
  | Event.workReportSent e _ => e

/-- Environment of one `register_for_epoch` call: the slot returned by
`rpc.get_slot()`, the phases computed by `get_epoch_phases`, and the
outcomes of the two external calls (`Epoch::register`, which itself submits
the registration transaction, and the PDA read-back). -/
structure RegisterEnv where
  slot : Nat
  phases : EpochPhases
  epochRegister : Except String (Option Unit)
  pdaFetch : Except String (Option ForesterEpochPda)

/-- `register_for_epoch` (`epoch_manager.rs` lines 223-311).  When
`slot < phases.registration.end` the controller calls `Epoch::register`
(submitting the registration transaction) and reads the PDA back; otherwise
it fails with `Custom("Too late to register for epoch")` without submitting
anything. -/
def register_for_epoch (env : RegisterEnv) (epoch : Nat) :
    List Event × Except ForesterError ForesterEpochInfo :=
  if env.slot < env.phases.registrationEnd then
    match env.epochRegister with
    | Except.ok (some _) =>
      match env.pdaFetch with
      | Except.ok (some pda) =>
        ([Event.registrationSubmitted epoch],
          Except.ok { epochNumber := epoch, phases := env.phases,
                      epoch_pda := pda, trees := [] })
      | Except.ok none =>
        ([Event.registrationSubmitted epoch],
          Except.error (ForesterError.custom "Failed to get ForesterEpochPda: returned None"))
      | Except.error e =>
        ([Event.registrationSubmitted epoch],
          Except.error (ForesterError.custom ("Failed to get ForesterEpochPda: " ++ e)))
    | Except.ok none =>
      ([Event.registrationSubmitted epoch],
        Except.error (ForesterError.custom "Epoch::register returned None"))
    | Except.error e =>
      ([Event.registrationSubmitted epoch],
        Except.error (ForesterError.custom ("Epoch::register failed: " ++ e)))
  else
    ([], Except.error (ForesterError.custom "Too late to register for epoch"))

/-- Environment of one epoch controller (`process_epoch`): the registration
environment and the coarse outcomes of the other phases.  `waitActive`
covers `wait_for_active_phase` (slot wait, finalize-registration
transaction, PDA re-read, schedule derivation), `performWork` covers
`perform_active_work`, `waitReport` covers `wait_for_report_work_phase`,
`reportTx` is the `create_report_work_instruction` transaction inside
`report_work`, `sendReport` the reporting-channel send, and
`processedCount` the value `get_processed_items_count` returns there. -/
structure EpochEnv where
  register : RegisterEnv
  waitActive : Except ForesterError Unit
  performWork : Except ForesterError Unit
  waitReport : Except ForesterError Unit
  reportTx : Except ForesterError Unit
  sendReport : Except ForesterError Unit
  processedCount : Nat

/-- `report_work` (`epoch_manager.rs` lines 972-998): submit the
`report_work` transaction, then send `WorkReport { epoch, processed_items }`
on the reporting channel; a transaction failure aborts before the send, and
a failed send delivers nothing and surfaces as a `Custom` error. -/
def report_work (env : EpochEnv) (epoch : Nat) :
    List Event × Except ForesterError Unit :=
  match env.reportTx with
  | Except.error e => ([], Except.error e)
  | Except.ok _ =>
    match env.sendReport with
    | Except.error _ =>
      ([Event.reportWorkSubmitted epoch],
        Except.error (ForesterError.custom "Failed to send work report"))
    | Except.ok _ =>
      ([Event.reportWorkSubmitted epoch,
        Event.workReportSent epoch env.processedCount], Except.ok ())

/-- `process_epoch` (`epoch_manager.rs` lines 193-216): the forward-only
phase sequence Register → WaitActive → PerformWork → WaitReport → Report;
the first failing phase aborts the controller for this epoch. -/
def process_epoch (env : EpochEnv) (epoch : Nat) :
    List Event × Except ForesterError Unit :=
  match register_for_epoch env.register epoch with
  | (tr, Except.error e) => (tr, Except.error e)
  | (tr, Except.ok _info) =>
    match env.waitActive with
    | Except.error e => (tr, Except.error e)
    | Except.ok _ =>
      match env.performWork with
      | Except.error e =>
        (tr ++ [Event.finalizeRegistrationSubmitted epoch], Except.error e)
      | Except.ok _ =>
        match env.waitReport with
        | Except.error e =>
          (tr ++ [Event.finalizeRegistrationSubmitted epoch,
                  Event.activeWorkPerformed epoch], Except.error e)
        | Except.ok _ =>
          let r := report_work env epoch
          (tr ++ [Event.finalizeRegistrationSubmitted epoch,
                  Event.activeWorkPerformed epoch] ++ r.1, r.2)

/-- Whether `register_for_epoch` succeeds in this environment. -/
def registrationOk (renv : RegisterEnv) : Bool :=
  decide (renv.slot < renv.phases.registrationEnd) &&
    (match renv.epochRegister, renv.pdaFetch with
     | Except.ok (some _), Except.ok (some _) => true
     | _, _ => false)

/-- `Except.isOk` as used by the phase-outcome bookkeeping. -/
def exceptIsOk {ε α : Type} : Except ε α → Bool
  | Except.ok _ => true
  | Except.error _ => false

/-- Whether the controller reaches the Report state: every phase before
`report_work` succeeds. -/
def reachesReportPhase (env : EpochEnv) : Bool :=
  registrationOk env.register && exceptIsOk env.waitActive &&
    exceptIsOk env.performWork && exceptIsOk env.waitReport

/-- Number of `WorkReport`s for `epoch` in an event trace. -/
def countWorkReports (tr : List Event) (epoch : Nat) : Nat :=
  tr.countP (fun ev => match ev with
    | Event.workReportSent e _ => decide (e = epoch)
    | _ => false)

/-- The epoch-monitor loop `monitor_epochs` (`epoch_manager.rs` lines
135-176), restricted to its emission behaviour: fold over the sequence of
`(slot, current_epoch)` observations made at the top of each iteration,
carrying `last_epoch`, and emit `current_epoch` when it is new and its
registration phase has not ended. -/
def monitor_epochs (phasesOf : Nat → EpochPhases) :
    Option Nat → List (Nat × Nat) → List Nat
  | _, [] => []
  | lastEpoch, (slot, currentEpoch) :: rest =>
    if (match lastEpoch with
        | none => true
        | some last => decide (currentEpoch > last)) then
      if slot < (phasesOf currentEpoch).registrationEnd then
        currentEpoch :: monitor_epochs phasesOf (some currentEpoch) rest
      else
        monitor_epochs phasesOf lastEpoch rest
    else
      monitor_epochs phasesOf lastEpoch rest

/-- `run` (`epoch_manager.rs` lines 114-133): one detached controller per
epoch received from the monitor channel; the combined observable trace. -/
def runControllers (envs : Nat → EpochEnv) (epochs : List Nat) : List Event :=
  (epochs.map (fun e => (process_epoch (envs e) e).1)).flatten

theorem countWorkReports_append (t1 t2 : List Event) (e : Nat) :
    countWorkReports (t1 ++ t2) e = countWorkReports t1 e + countWorkReports t2 e :=
  List.countP_append _ _ _

theorem runControllers_cons (envs : Nat → EpochEnv) (a : Nat) (l : List Nat) :
    runControllers envs (a :: l) = (process_epoch (envs a) a).1 ++ runControllers envs l := by
  simp [runControllers]

/-- Complete characterisation of one controller run: when every phase and
the two Report-state effects succeed, the trace is the full five-event
sequence ending in one `WorkReport` and the controller returns `Ok`;
otherwise no `WorkReport` is in the trace and the controller returns an
error.  In both cases every event belongs to this controller's epoch. -/
theorem process_epoch_spec (env : EpochEnv) (epoch : Nat) :
    (if reachesReportPhase env && exceptIsOk env.reportTx && exceptIsOk env.sendReport
     then (process_epoch env epoch).1 =
            [Event.registrationSubmitted epoch,
             Event.finalizeRegistrationSubmitted epoch,
             Event.activeWorkPerformed epoch,
             Event.reportWorkSubmitted epoch,
             Event.workReportSent epoch env.processedCount] ∧
          (process_epoch env epoch).2 = Except.ok ()
     else countWorkReports (process_epoch env epoch).1 epoch = 0 ∧
          ∃ e, (process_epoch env epoch).2 = Except.error e) ∧
    (∀ ev ∈ (process_epoch env epoch).1, ev.epochOf = epoch) := by
  obtain ⟨⟨slot, phases, er, pf⟩, wa, pw, wr, rt, sr, pc⟩ := env
  by_cases h1 : slot < phases.registrationEnd
  case neg =>
    simp [process_epoch, register_for_epoch, report_work, reachesReportPhase,
      registrationOk, exceptIsOk, countWorkReports, Event.epochOf, h1]
  case pos =>
    cases er with
    | error e =>
      simp [process_epoch, register_for_epoch, report_work, reachesReportPhase,
        registrationOk, exceptIsOk, countWorkReports, Event.epochOf, h1]
    | ok o =>
      cases o with
      | none =>
        simp [process_epoch, register_for_epoch, report_work, reachesReportPhase,
          registrationOk, exceptIsOk, countWorkReports, Event.epochOf, h1]
      | some u =>
        cases pf with
        | error e =>
          simp [process_epoch, register_for_epoch, report_work, reachesReportPhase,
            registrationOk, exceptIsOk, countWorkReports, Event.epochOf, h1]
        | ok o2 =>
          cases o2 with
          | none =>
            simp [process_epoch, register_for_epoch, report_work, reachesReportPhase,
              registrationOk, exceptIsOk, countWorkReports, Event.epochOf, h1]
          | some pda =>
            cases wa with
            | error e =>
              simp [process_epoch, register_for_epoch, report_work, reachesReportPhase,
                registrationOk, exceptIsOk, countWorkReports, Event.epochOf, h1]
            | ok u2 =>
              cases pw with
              | error e =>
                simp [process_epoch, register_for_epoch, report_work, reachesReportPhase,
                  registrationOk, exceptIsOk, countWorkReports, Event.epochOf, h1]
              | ok u3 =>
                cases wr with
                | error e =>
                  simp [process_epoch, register_for_epoch, report_work, reachesReportPhase,
                    registrationOk, exceptIsOk, countWorkReports, Event.epochOf, h1]
                | ok u4 =>
                  cases rt with
                  | error e =>
                    simp [process_epoch, register_for_epoch, report_work, reachesReportPhase,
                      registrationOk, exceptIsOk, countWorkReports, Event.epochOf, h1]
                  | ok u5 =>
                    cases sr with
                    | error e =>
                      simp [process_epoch, register_for_epoch, report_work, reachesReportPhase,
                        registrationOk, exceptIsOk, countWorkReports, Event.epochOf, h1]
                    | ok u6 =>
                      simp [process_epoch, register_for_epoch, report_work, reachesReportPhase,
                        registrationOk, exceptIsOk, countWorkReports, Event.epochOf, h1]

theorem process_epoch_events_epoch (env : EpochEnv) (epoch : Nat) :
    ∀ ev ∈ (process_epoch env epoch).1, ev.epochOf = epoch :=
  (process_epoch_spec env epoch).2

theorem countWorkReports_eq_zero_of_ne (env : EpochEnv) (e2 e : Nat) (hne : e2 ≠ e) :
    countWorkReports (process_epoch env e2).1 e = 0 := by
  unfold countWorkReports
  rw [List.countP_eq_zero]
  intro ev hev
  have h := process_epoch_events_epoch env e2 ev hev
  cases ev <;> simp_all [Event.epochOf]

theorem process_epoch_count_le_one (env : EpochEnv) (epoch : Nat) :
    countWorkReports (process_epoch env epoch).1 epoch ≤ 1 := by
  have h := (process_epoch_spec env epoch).1
  by_cases hc : (reachesReportPhase env && exceptIsOk env.reportTx &&
      exceptIsOk env.sendReport) = true
  · rw [if_pos hc] at h
    rw [h.1]
    simp [countWorkReports]
  · rw [if_neg hc] at h
    omega

theorem process_epoch_count_zero_of_error (env : EpochEnv) (epoch : Nat) (e : ForesterError)
    (herr : (process_epoch env epoch).2 = Except.error e) :
    countWorkReports (process_epoch env epoch).1 epoch = 0 := by
  have h := (process_epoch_spec env epoch).1
  by_cases hc : (reachesReportPhase env && exceptIsOk env.reportTx &&
      exceptIsOk env.sendReport) = true
  · rw [if_pos hc] at h
    rw [h.2] at herr
    cases herr
  · rw [if_neg hc] at h
    exact h.1

theorem runControllers_count_not_mem (envs : Nat → EpochEnv) (epochs : List Nat) (e : Nat)
    (h : e ∉ epochs) : countWorkReports (runControllers envs epochs) e = 0 := by
  induction epochs with
  | nil => rfl
  | cons a l ih =>
    rw [runControllers_cons, countWorkReports_append]
    have hne : a ≠ e := fun hc => h (hc ▸ List.mem_cons_self a l)
    rw [countWorkReports_eq_zero_of_ne (envs a) a e hne,
      ih (fun hc => h (List.mem_cons_of_mem a hc))]

theorem runControllers_count_le_one (envs : Nat → EpochEnv) (epochs : List Nat) (e : Nat)
    (hp : epochs.Pairwise (· < ·)) :
    countWorkReports (runControllers envs epochs) e ≤ 1 := by
  induction epochs with
  | nil => simp [runControllers, countWorkReports]
  | cons a l ih =>
    rw [runControllers_cons, countWorkReports_append]
    rcases List.pairwise_cons.mp hp with ⟨ha, hl⟩
    by_cases he : a = e
    · subst he
      have h0 : countWorkReports (runControllers envs l) a = 0 :=
        runControllers_count_not_mem envs l a (fun hmem => by have := ha a hmem; omega)
      have h1 := process_epoch_count_le_one (envs a) a
      omega
    · rw [countWorkReports_eq_zero_of_ne (envs a) a e he]
      simpa using ih hl

theorem monitor_epochs_gt (phasesOf : Nat → EpochPhases) :
    ∀ (obs : List (Nat × Nat)) (last e : Nat),
      e ∈ monitor_epochs phasesOf (some last) obs → last < e := by
  intro obs
  induction obs with
  | nil => intro last e h; cases h
  | cons o rest ih =>
    intro last e h
    obtain ⟨slot, cur⟩ := o
    unfold monitor_epochs at h
    split at h
    case isTrue hcond =>
      have h1 : last < cur := by simpa using hcond
      split at h
      · rcases List.mem_cons.mp h with rfl | hmem
        · exact h1
        · exact lt_trans h1 (ih cur e hmem)
      · exact ih last e h
    case isFalse hcond =>
      exact ih last e h

theorem monitor_epochs_pairwise (phasesOf : Nat → EpochPhases) :
    ∀ (obs : List (Nat × Nat)) (lastO : Option Nat),
      (monitor_epochs phasesOf lastO obs).Pairwise (· < ·) := by
  intro obs
  induction obs with
  | nil => intro lastO; exact List.Pairwise.nil
  | cons o rest ih =>
    intro lastO
    obtain ⟨slot, cur⟩ := o
    unfold monitor_epochs
    split
    · split
      · exact List.pairwise_cons.mpr
          ⟨fun e hmem => monitor_epochs_gt phasesOf rest cur e hmem, ih (some cur)⟩
      · exact ih lastO
    · exact ih lastO

/-- Phase boundaries used by the concrete controller environments below. -/
def demoPhases : EpochPhases :=
  { registrationStart := 0, registrationEnd := 10, activeStart := 20,
    activeEnd := 30, reportWorkStart := 40 }

/-- Forester epoch PDA used by the concrete environments below. -/
def demoPda : ForesterEpochPda :=
  { epoch_active_phase_start_slot := 20, slot_length := 5 }

/-- A registration environment in which every step succeeds
(`slot = 5 < registration.end = 10`). -/
def demoRegisterOkEnv : RegisterEnv :=
  { slot := 5, phases := demoPhases, epochRegister := Except.ok (some ()),
    pdaFetch := Except.ok (some demoPda) }

/-- Environment for the C1 counterexample: every phase before Report
succeeds, but the `report_work` transaction submission fails. -/
def c1CounterexampleEnv : EpochEnv :=
  { register := demoRegisterOkEnv,
    waitActive := Except.ok (), performWork := Except.ok (), waitReport := Except.ok (),
    reportTx := Except.error (ForesterError.custom "rpc unavailable"),
    sendReport := Except.ok (), processedCount := 3 }

/-- C1 counterexample: a controller that reaches the Report state but whose
`report_work` transaction submission fails sends no `WorkReport` at all for
its epoch, contradicting the claim that every controller reaching the
Report state sends exactly one `WorkReport`. -/
theorem c1_counterexample :
    reachesReportPhase c1CounterexampleEnv = true ∧
    countWorkReports (process_epoch c1CounterexampleEnv 7).1 7 = 0 := by
  constructor
  · rfl
  · rfl

/-- Claim C1 (amended): for every epoch `e` whose controller reaches the
Report state and whose `report_work` submission and reporting-channel send
both succeed, the controller submits the `report_work` transaction and then
sends exactly one `WorkReport{epoch: e, processed_items: n}` with `n ≥ 0`;
a controller that terminates with an error — in an earlier state or in the
Report state itself — sends no WorkReport for `e`; and across the epoch
monitor and the controllers it spawns, no epoch ever receives two
WorkReports. -/
theorem c1_amended_theorem (env : EpochEnv) (epoch : Nat) (envs : Nat → EpochEnv)
    (phasesOf : Nat → EpochPhases) (obs : List (Nat × Nat)) :
    (reachesReportPhase env = true → exceptIsOk env.reportTx = true →
      exceptIsOk env.sendReport = true →
      (process_epoch env epoch).1 =
        [Event.registrationSubmitted epoch, Event.finalizeRegistrationSubmitted epoch,
         Event.activeWorkPerformed epoch, Event.reportWorkSubmitted epoch,
         Event.workReportSent epoch env.processedCount] ∧
      countWorkReports (process_epoch env epoch).1 epoch = 1 ∧
      0 ≤ env.processedCount) ∧
    (∀ e, (process_epoch env epoch).2 = Except.error e →
      countWorkReports (process_epoch env epoch).1 epoch = 0) ∧
    countWorkReports (runControllers envs (monitor_epochs phasesOf none obs)) epoch ≤ 1 := by
  refine ⟨?_, ?_, ?_⟩
  · intro h1 h2 h3
    have hc : (reachesReportPhase env && exceptIsOk env.reportTx &&
        exceptIsOk env.sendReport) = true := by
      rw [h1, h2, h3]
      rfl
    have h := (process_epoch_spec env epoch).1
    rw [if_pos hc] at h
    refine ⟨h.1, ?_, Nat.zero_le _⟩
    rw [h.1]
    simp [countWorkReports]
  · intro e herr
    exact process_epoch_count_zero_of_error env epoch e herr
  · exact runControllers_count_le_one envs _ epoch (monitor_epochs_pairwise phasesOf obs none)

/-- A fully successful controller environment. -/
def c1OkEnv : EpochEnv :=
  { register := demoRegisterOkEnv,
    waitActive := Except.ok (), performWork := Except.ok (), waitReport := Except.ok (),
    reportTx := Except.ok (), sendReport := Except.ok (), processedCount := 6 }

/-- Witness for C1 at concrete inputs: a fully successful controller for
epoch 3 sends exactly one WorkReport, and a monitor run over two
observations never lets any epoch receive two WorkReports. -/
theorem c1_witness :
    countWorkReports (process_epoch c1OkEnv 3).1 3 = 1 ∧
    countWorkReports
      (runControllers (fun _ => c1OkEnv)
        (monitor_epochs (fun _ => demoPhases) none [(0, 1), (0, 2)])) 3 ≤ 1 := by
  have h := c1_amended_theorem c1OkEnv 3 (fun _ => c1OkEnv) (fun _ => demoPhases)
    [(0, 1), (0, 2)]
  exact ⟨(h.1 (by decide) (by decide) (by decide)).2.1, h.2.2⟩

/-- Registration environment for the C6 counterexample: the S2 scenario,
`current_slot = registration.end`. -/
def c6CounterexampleRegisterEnv : RegisterEnv :=
  { slot := 10, phases := demoPhases, epochRegister := Except.ok (some ()),
    pdaFetch := Except.ok (some demoPda) }

/-- C6 counterexample: at `slot = registration.end` the registration does
fail and the controller terminates, but the error is
`Custom("Too late to register for epoch")`, not the `RegistrationTooLate`
error kind named by the claim. -/
theorem c6_counterexample :
    (register_for_epoch c6CounterexampleRegisterEnv 5).2 =
      Except.error (ForesterError.custom "Too late to register for epoch") ∧
    ForesterError.custom "Too late to register for epoch" ≠
      ForesterError.registrationTooLate := by
  constructor
  · rfl
  · simp

/-- Claim C6 (amended): if the slot read at registration time satisfies
`slot ≥ registration.end`, `register_for_epoch` fails with the
`Custom("Too late to register for epoch")` error (the code's realisation of
the registration-too-late condition) and the controller terminates for that
epoch with an empty trace — no work performed and no WorkReport emitted; if
`slot < registration.end` it proceeds to submit the registration
transaction. -/
theorem c6_amended_theorem (env : EpochEnv) (epoch : Nat) :
    (env.register.phases.registrationEnd ≤ env.register.slot →
      (register_for_epoch env.register epoch).2 =
        Except.error (ForesterError.custom "Too late to register for epoch") ∧
      (process_epoch env epoch).1 = [] ∧
      (process_epoch env epoch).2 =
        Except.error (ForesterError.custom "Too late to register for epoch")) ∧
    (env.register.slot < env.register.phases.registrationEnd →
      Event.registrationSubmitted epoch ∈ (register_for_epoch env.register epoch).1) := by
  constructor
  · intro hlate
    have hnot : ¬ env.register.slot < env.register.phases.registrationEnd := by omega
    have hreg : register_for_epoch env.register epoch =
        ([], Except.error (ForesterError.custom "Too late to register for epoch")) := by
      unfold register_for_epoch
      rw [if_neg hnot]
    refine ⟨by rw [hreg], ?_, ?_⟩
    · simp [process_epoch, hreg]
    · simp [process_epoch, hreg]
  · intro hearly
    unfold register_for_epoch
    rw [if_pos hearly]
    cases henv : env.register.epochRegister with
    | error e => simp
    | ok o =>
      cases o with
      | none => simp
      | some u =>
        cases hpf : env.register.pdaFetch with
        | error e => simp
        | ok o2 =>
          cases o2 with
          | none => simp
          | some pda => simp

/-- Witness for C6 at concrete inputs: a too-late registration fails with
the custom error and leaves an empty trace, and an in-time registration
submits the registration transaction. -/
theorem c6_witness :
    (process_epoch
        { register := c6CounterexampleRegisterEnv, waitActive := Except.ok (),
          performWork := Except.ok (), waitReport := Except.ok (),
          reportTx := Except.ok (), sendReport := Except.ok (),
          processedCount := 0 } 5).1 = [] ∧
    Event.registrationSubmitted 5 ∈ (register_for_epoch c1OkEnv.register 5).1 := by
  constructor
  · exact ((c6_amended_theorem
      { register := c6CounterexampleRegisterEnv, waitActive := Except.ok (),
        performWork := Except.ok (), waitReport := Except.ok (),
        reportTx := Except.ok (), sendReport := Except.ok (),
        processedCount := 0 } 5).1 (by decide)).2.1
  · exact (c6_amended_theorem c1OkEnv 5).2 (by decide)

/-- For a light slot out of range of the tree's schedule,
`check_eligibility` panics in the `debug!` argument's `Vec` indexing when
debug-level logging is enabled, and returns `Err(NotEligible)` when it is
disabled. -/
theorem check_eligibility_out_of_range (env : EligibilityEnv) (info : ForesterEpochInfo)
    (tree : TreeAccounts) (pda : ForesterEpochPda) (ts : TreeForesterSchedule)
    (hpda : env.pdaFetch = Except.ok (some pda))
    (hstart : pda.epoch_active_phase_start_slot ≤ env.current_slot)
    (hfind : info.trees.find? (fun t => decide (t.tree_accounts = tree)) = some ts)
    (hrange : ts.slots.length ≤
      (env.current_slot - pda.epoch_active_phase_start_slot) / pda.slot_length) :
    check_eligibility env info tree =
      (if env.debugLoggingEnabled then EligibilityOutcome.indexPanic
       else EligibilityOutcome.result (Except.error ForesterError.notEligible)) := by
  have hls : pda.get_current_light_slot env.current_slot =
      Except.ok ((env.current_slot - pda.epoch_active_phase_start_slot) /
        pda.slot_length) := by
    unfold ForesterEpochPda.get_current_light_slot
    rw [if_neg (by omega)]
  have hne : ts.is_eligible ((env.current_slot - pda.epoch_active_phase_start_slot) /
      pda.slot_length) = false := by
    unfold TreeForesterSchedule.is_eligible
    exact List.getD_eq_default _ _ hrange
  unfold check_eligibility
  cases hdbg : env.debugLoggingEnabled with
  | true => simp [hpda, hls, hfind, hrange, hne, hdbg]
  | false => simp [hpda, hls, hfind, hne, hdbg]

/-- Schedule used by the C7 failing input: four light slots, none
eligible. -/
def c7DemoSchedule : TreeForesterSchedule :=
  { tree_accounts := { merkle_tree := 1, queue := 2, tree_type := TreeType.State },
    slots := [false, false, false, false] }

/-- Eligibility environment of the C7 failing input with debug-level
logging enabled: current slot 100, so light slot `(100 - 20) / 5 = 16`. -/
def c7DemoEligEnvDebug : EligibilityEnv :=
  { current_slot := 100, pdaFetch := Except.ok (some demoPda),
    debugLoggingEnabled := true }

/-- The same eligibility environment with debug-level logging disabled. -/
def c7DemoEligEnv : EligibilityEnv :=
  { current_slot := 100, pdaFetch := Except.ok (some demoPda),
    debugLoggingEnabled := false }

/-- Registration info of the C7 failing input: one tree with the 4-slot
schedule. -/
def c7DemoInfo : ForesterEpochInfo :=
  { epochNumber := 3, phases := demoPhases, epoch_pda := demoPda,
    trees := [c7DemoSchedule] }

/-- The tree account queried at the C7 failing input. -/
def c7DemoTree : TreeAccounts :=
  { merkle_tree := 1, queue := 2, tree_type := TreeType.State }

/-- The `Except` value the non-panicking check hands to the retry loop's
eligibility oracle; with debug logging disabled this check does not panic,
so the second arm is never taken for this input. -/
def c7DemoEligExcept : Except ForesterError Unit :=
  match check_eligibility c7DemoEligEnv c7DemoInfo c7DemoTree with
  | EligibilityOutcome.result r => r
  | EligibilityOutcome.indexPanic => Except.error (ForesterError.custom "unreachable")

/-- Batch environment whose eligibility oracle is the non-panicking C7
`check_eligibility` call. -/
def c7DemoBatchEnv : BatchEnv :=
  { eligibility := fun _ => c7DemoEligExcept,
    submit := fun _ => Except.ok 11, jitter := fun _ => 0 }

/-- Claim C7: at the failing input — light slot `(100 - 20) / 5 = 16`, out
of range of the 4-slot schedule — the eligibility check panics on the
out-of-bounds `Vec` indexing inside the `debug!` call
(`epoch_manager.rs` lines 820-823) when debug-level logging is enabled,
instead of returning not-eligible as the claim states; with debug logging
disabled it does return `Err(NotEligible)` and the batch is skipped with
`Ok(None)` without a submission, which is the claim's (and spec §4.5's)
evident intent. -/
theorem c7_theorem :
    check_eligibility c7DemoEligEnvDebug c7DemoInfo c7DemoTree =
      EligibilityOutcome.indexPanic ∧
    check_eligibility c7DemoEligEnv c7DemoInfo c7DemoTree =
      EligibilityOutcome.result (Except.error ForesterError.notEligible) ∧
    (process_transaction_batch_with_retry 3 c7DemoBatchEnv [demoWorkItem]).result =
      Except.ok none ∧
    (process_transaction_batch_with_retry 3 c7DemoBatchEnv [demoWorkItem]).submits = 0 := by
  refine ⟨?_, ?_, ?_, ?_⟩ <;> decide

/-- `NewAddressProofWithContext` from `light_test_utils::indexer`: the
low-element non-inclusion witness for an address insertion.  Field values
are abstracted to `Nat` / `List Nat`. -/
structure NewAddressProofWithContext where
  low_address_index : Nat
  low_address_value : Nat
  low_address_next_index : Nat
  low_address_next_value : Nat
  low_address_proof : List Nat
  root_seq : Nat
deriving DecidableEq, Repr

/-- `MerkleProof` from `light_test_utils::indexer`: a state inclusion
proof. -/
structure MerkleProof where
  hash : Nat
  leaf_index : Nat
  proof : List Nat
  root_seq : Nat
deriving DecidableEq, Repr

/-- `Proof` (`epoch_manager.rs` lines 58-63). -/
inductive Proof where
  | addressProof (p : NewAddressProofWithContext)
  | stateProof (p : MerkleProof)
deriving DecidableEq, Repr

/-- The fields of `UpdateAddressMerkleTreeInstructionInputs` filled in by
`fetch_proofs_and_create_instructions`. -/
structure UpdateAddressMerkleTreeInstructionInputs where
  authority : Nat
  address_merkle_tree : Nat
  address_queue : Nat
  value : Nat
  low_address_index : Nat
  low_address_value : Nat
  low_address_next_index : Nat
  low_address_next_value : Nat
  low_address_proof : List Nat
  changelog_index : Nat
  indexed_changelog_index : Nat
  is_metadata_forester : Bool
  epoch : Nat
deriving DecidableEq, Repr

/-- The fields of `CreateNullifyInstructionInputs` filled in by
`fetch_proofs_and_create_instructions`. -/
structure CreateNullifyInstructionInputs where
  nullifier_queue : Nat
  merkle_tree : Nat
  change_log_indices : List Nat
  leaves_queue_indices : List Nat
  indices : List Nat
  proofs : List (List Nat)
  authority : Nat
  derivation : Nat
  is_metadata_forester : Bool
  epoch : Nat
deriving DecidableEq, Repr

/-- A built ledger instruction, kept symbolic: the external builders
`create_update_address_merkle_tree_instruction` and
`create_nullify_instruction` are treated as opaque constructors of their
input records. -/
inductive Instruction where
  | updateAddressMerkleTree (inputs : UpdateAddressMerkleTreeInstructionInputs)
  | nullify (inputs : CreateNullifyInstructionInputs)
deriving DecidableEq, Repr

/-- Outcomes of the two batched indexer calls
(`get_multiple_new_address_proofs`, `get_multiple_compressed_account_proofs`)
made by `fetch_proofs_and_create_instructions`. -/
structure ProofFetchEnv where
  addressProofs : Except ForesterError (List NewAddressProofWithContext)
  stateProofs : Except ForesterError (List MerkleProof)

/-- The `UpdateAddressMerkleTreeInstructionInputs` record built for one
(address item, proof) pair (`epoch_manager.rs` lines 1031-1049): `u32`
values cast `as u16` are reduced modulo `2 ^ 16`. -/
def addressInstructionInputs (authority aclog aiclog epoch : Nat) (item : WorkItem)
    (proof : NewAddressProofWithContext) : UpdateAddressMerkleTreeInstructionInputs :=
  { authority := authority,
    address_merkle_tree := item.tree_account.merkle_tree,
    address_queue := item.tree_account.queue,
    value := item.queue_item_data.index % 2 ^ 16,
    low_address_index := proof.low_address_index,
    low_address_value := proof.low_address_value,
    low_address_next_index := proof.low_address_next_index,
    low_address_next_value := proof.low_address_next_value,
    low_address_proof := proof.low_address_proof,
    changelog_index := proof.root_seq % aclog % 2 ^ 16,
    indexed_changelog_index := proof.root_seq % aiclog % 2 ^ 16,
    is_metadata_forester := false,
    epoch := epoch }

/-- The (proof, instruction) pair pushed for one address work item. -/
def buildAddressEntry (authority aclog aiclog epoch : Nat) (item : WorkItem)
    (proof : NewAddressProofWithContext) : Proof × Instruction :=
  (Proof.addressProof proof,
   Instruction.updateAddressMerkleTree
     (addressInstructionInputs authority aclog aiclog epoch item proof))

/-- The `CreateNullifyInstructionInputs` record built for one
(state item, proof) pair (`epoch_manager.rs` lines 1067-1080). -/
def nullifyInstructionInputs (authority sclog epoch : Nat) (item : WorkItem)
    (proof : MerkleProof) : CreateNullifyInstructionInputs :=
  { nullifier_queue := item.tree_account.queue,
    merkle_tree := item.tree_account.merkle_tree,
    change_log_indices := [proof.root_seq % sclog],
    leaves_queue_indices := [item.queue_item_data.index % 2 ^ 16],
    indices := [proof.leaf_index],
    proofs := [proof.proof],
    authority := authority,
    derivation := authority,
    is_metadata_forester := false,
    epoch := epoch }

/-- The (proof, instruction) pair pushed for one state work item. -/
def buildStateEntry (authority sclog epoch : Nat) (item : WorkItem)
    (proof : MerkleProof) : Proof × Instruction :=
  (Proof.stateProof proof,
   Instruction.nullify (nullifyInstructionInputs authority sclog epoch item proof))

/-- The address block of `fetch_proofs_and_create_instructions`
(`epoch_manager.rs` lines 1013-1052): when there are address items, fetch
the batched non-inclusion proofs (propagating an indexer failure) and push
one (proof, instruction) pair per zipped (item, proof). -/
def buildAddressBatch (authority aclog aiclog epoch : Nat) (address_items : List WorkItem)
    (res : Except ForesterError (List NewAddressProofWithContext)) :
    Except ForesterError (List (Proof × Instruction)) :=
  if address_items.isEmpty then Except.ok []
  else
    match res with
    | Except.error e => Except.error e
    | Except.ok address_proofs =>
      Except.ok ((address_items.zip address_proofs).map
        (fun ip => buildAddressEntry authority aclog aiclog epoch ip.1 ip.2))

/-- The state block of `fetch_proofs_and_create_instructions`
(`epoch_manager.rs` lines 1055-1083). -/
def buildStateBatch (authority sclog epoch : Nat) (state_items : List WorkItem)
    (res : Except ForesterError (List MerkleProof)) :
    Except ForesterError (List (Proof × Instruction)) :=
  if state_items.isEmpty then Except.ok []
  else
    match res with
    | Except.error e => Except.error e
    | Except.ok state_proofs =>
      Except.ok ((state_items.zip state_proofs).map
        (fun ip => buildStateEntry authority sclog epoch ip.1 ip.2))

/-- `fetch_proofs_and_create_instructions` (`epoch_manager.rs` lines
1000-1086): partition the work items by tree type (`partition` keeps the
relative order, address items in the first component), run the address
block, then the state block, pushing into the `proofs` and `instructions`
vectors in lockstep; the two vectors are the component-wise projections of
the pushed pairs.  The changelog moduli (constants from the external
`account_compression` crate) and the payer pubkey are parameters. -/
def fetch_proofs_and_create_instructions (authority aclog aiclog sclog : Nat)
    (env : ProofFetchEnv) (epoch : Nat) (work_items : List WorkItem) :
    Except ForesterError (List Proof × List Instruction) :=
  match buildAddressBatch authority aclog aiclog epoch
      (work_items.partition
        (fun item => decide (item.tree_account.tree_type = TreeType.Address))).1
      env.addressProofs with
  | Except.error e => Except.error e
  | Except.ok addressEntries =>
    match buildStateBatch authority sclog epoch
        (work_items.partition
          (fun item => decide (item.tree_account.tree_type = TreeType.Address))).2
        env.stateProofs with
    | Except.error e => Except.error e
    | Except.ok stateEntries =>
      Except.ok ((addressEntries ++ stateEntries).map Prod.fst,
                 (addressEntries ++ stateEntries).map Prod.snd)

/-- The changelog fields the spec prescribes for an aligned
(proof, instruction) pair. -/
def changelogSpec (aclog aiclog sclog : Nat) : Proof → Instruction → Prop
  | Proof.addressProof p, Instruction.updateAddressMerkleTree ix =>
      ix.changelog_index = p.root_seq % aclog % 2 ^ 16 ∧
      ix.indexed_changelog_index = p.root_seq % aiclog % 2 ^ 16
  | Proof.stateProof p, Instruction.nullify ix =>
      ix.change_log_indices = [p.root_seq % sclog]
  | _, _ => False

/-- An aligned (proof, instruction) pair in which the instruction embeds
exactly this proof's witness data. -/
def proofEmbedded : Proof → Instruction → Prop
  | Proof.addressProof p, Instruction.updateAddressMerkleTree ix =>
      ix.low_address_index = p.low_address_index ∧
      ix.low_address_value = p.low_address_value ∧
      ix.low_address_next_index = p.low_address_next_index ∧
      ix.low_address_next_value = p.low_address_next_value ∧
      ix.low_address_proof = p.low_address_proof
  | Proof.stateProof p, Instruction.nullify ix =>
      ix.proofs = [p.proof] ∧ ix.indices = [p.leaf_index]
  | _, _ => False

/-- Whether a proof is an address (non-inclusion) proof. -/
def Proof.isAddress : Proof → Bool
  | Proof.addressProof _ => true
  | Proof.stateProof _ => false

/-- Whether an instruction is an `update_address_merkle_tree` instruction. -/
def Instruction.isUpdateAddress : Instruction → Bool
  | Instruction.updateAddressMerkleTree _ => true
  | Instruction.nullify _ => false

theorem buildAddressBatch_ok (authority aclog aiclog epoch : Nat)
    (address_items : List WorkItem)
    (res : Except ForesterError (List NewAddressProofWithContext))
    (entries : List (Proof × Instruction))
    (h : buildAddressBatch authority aclog aiclog epoch address_items res =
      Except.ok entries) :
    ∀ e ∈ entries, ∃ item proof,
      e = buildAddressEntry authority aclog aiclog epoch item proof := by
  unfold buildAddressBatch at h
  split at h
  · cases h
    intro e he
    cases he
  · split at h
    · cases h
    · cases h
      intro e he
      obtain ⟨ip, _hip, rfl⟩ := List.mem_map.mp he
      exact ⟨ip.1, ip.2, rfl⟩

theorem buildStateBatch_ok (authority sclog epoch : Nat)
    (state_items : List WorkItem)
    (res : Except ForesterError (List MerkleProof))
    (entries : List (Proof × Instruction))
    (h : buildStateBatch authority sclog epoch state_items res = Except.ok entries) :
    ∀ e ∈ entries, ∃ item proof,
      e = buildStateEntry authority sclog epoch item proof := by
  unfold buildStateBatch at h
  split at h
  · cases h
    intro e he
    cases he
  · split at h
    · cases h
    · cases h
      intro e he
      obtain ⟨ip, _hip, rfl⟩ := List.mem_map.mp he
      exact ⟨ip.1, ip.2, rfl⟩

theorem zip_map_fst_snd {α β : Type} (l : List (α × β)) :
    (l.map Prod.fst).zip (l.map Prod.snd) = l := by
  induction l with
  | nil => rfl
  | cons a t ih => simp [ih]

/-- Inversion of a successful `fetch_proofs_and_create_instructions` run:
the outputs are the projections of an address-entry block followed by a
state-entry block. -/
theorem fetch_proofs_ok_inv (authority aclog aiclog sclog : Nat) (env : ProofFetchEnv)
    (epoch : Nat) (work_items : List WorkItem) (proofs : List Proof)
    (instructions : List Instruction)
    (h : fetch_proofs_and_create_instructions authority aclog aiclog sclog env epoch
      work_items = Except.ok (proofs, instructions)) :
    ∃ addressEntries stateEntries : List (Proof × Instruction),
      (∀ e ∈ addressEntries, ∃ item proof,
        e = buildAddressEntry authority aclog aiclog epoch item proof) ∧
      (∀ e ∈ stateEntries, ∃ item proof,
        e = buildStateEntry authority sclog epoch item proof) ∧
      proofs = (addressEntries ++ stateEntries).map Prod.fst ∧
      instructions = (addressEntries ++ stateEntries).map Prod.snd := by
  unfold fetch_proofs_and_create_instructions at h
  split at h
  · cases h
  · rename_i addressEntries hA
    split at h
    · cases h
    · rename_i stateEntries hS
      cases h
      exact ⟨addressEntries, stateEntries,
        buildAddressBatch_ok _ _ _ _ _ _ _ hA,
        buildStateBatch_ok _ _ _ _ _ _ hS, rfl, rfl⟩

/-- Claim C8: in a successful `fetch_proofs_and_create_instructions` run,
every aligned (proof, instruction) pair carries the prescribed changelog
fields: an address proof's instruction has
`changelog_index = root_seq % ADDRESS_MERKLE_TREE_CHANGELOG` and
`indexed_changelog_index = root_seq % ADDRESS_MERKLE_TREE_INDEXED_CHANGELOG`
(each then cast to u16, i.e. reduced modulo `2 ^ 16`), and a state proof's
instruction has
`change_log_indices = [root_seq % STATE_MERKLE_TREE_CHANGELOG]`. -/
theorem c8_theorem (authority aclog aiclog sclog : Nat) (env : ProofFetchEnv)
    (epoch : Nat) (work_items : List WorkItem) (proofs : List Proof)
    (instructions : List Instruction)
    (h : fetch_proofs_and_create_instructions authority aclog aiclog sclog env epoch
      work_items = Except.ok (proofs, instructions)) :
    ∀ pi ∈ proofs.zip instructions, changelogSpec aclog aiclog sclog pi.1 pi.2 := by
  obtain ⟨ae, se, hae, hse, rfl, rfl⟩ :=
    fetch_proofs_ok_inv authority aclog aiclog sclog env epoch work_items _ _ h
  rw [zip_map_fst_snd]
  intro pi hpi
  rcases List.mem_append.mp hpi with hmem | hmem
  · obtain ⟨item, proof, rfl⟩ := hae pi hmem
    exact ⟨rfl, rfl⟩
  · obtain ⟨item, proof, rfl⟩ := hse pi hmem
    rfl

/-- Claim C9: a successful `fetch_proofs_and_create_instructions` run
returns a proofs vector and an instructions vector of equal length,
index-aligned so that `proofs[i]` is the proof embedded in
`instructions[i]`, and with all entries derived from Address-type items
preceding all entries derived from State-type items, for every input
order. -/
theorem c9_theorem (authority aclog aiclog sclog : Nat) (env : ProofFetchEnv)
    (epoch : Nat) (work_items : List WorkItem) (proofs : List Proof)
    (instructions : List Instruction)
    (h : fetch_proofs_and_create_instructions authority aclog aiclog sclog env epoch
      work_items = Except.ok (proofs, instructions)) :
    proofs.length = instructions.length ∧
    (∀ pi ∈ proofs.zip instructions, proofEmbedded pi.1 pi.2) ∧
    ∃ pa ps : List Proof, ∃ ia ins : List Instruction,
      proofs = pa ++ ps ∧ instructions = ia ++ ins ∧ pa.length = ia.length ∧
      (∀ p ∈ pa, p.isAddress = true) ∧ (∀ p ∈ ps, p.isAddress = false) ∧
      (∀ i ∈ ia, i.isUpdateAddress = true) ∧
      (∀ i ∈ ins, i.isUpdateAddress = false) := by
  obtain ⟨ae, se, hae, hse, rfl, rfl⟩ :=
    fetch_proofs_ok_inv authority aclog aiclog sclog env epoch work_items _ _ h
  refine ⟨by simp, ?_, ?_⟩
  · rw [zip_map_fst_snd]
    intro pi hpi
    rcases List.mem_append.mp hpi with hmem | hmem
    · obtain ⟨item, proof, rfl⟩ := hae pi hmem
      exact ⟨rfl, rfl, rfl, rfl, rfl⟩
    · obtain ⟨item, proof, rfl⟩ := hse pi hmem
      exact ⟨rfl, rfl⟩
  · refine ⟨ae.map Prod.fst, se.map Prod.fst, ae.map Prod.snd, se.map Prod.snd,
      by simp, by simp, by simp, ?_, ?_, ?_, ?_⟩
    · intro p hp
      obtain ⟨e, he, rfl⟩ := List.mem_map.mp hp
      obtain ⟨item, proof, rfl⟩ := hae e he
      rfl
    · intro p hp
      obtain ⟨e, he, rfl⟩ := List.mem_map.mp hp
      obtain ⟨item, proof, rfl⟩ := hse e he
      rfl
    · intro i hi
      obtain ⟨e, he, rfl⟩ := List.mem_map.mp hi
      obtain ⟨item, proof, rfl⟩ := hae e he
      rfl
    · intro i hi
      obtain ⟨e, he, rfl⟩ := List.mem_map.mp hi
      obtain ⟨item, proof, rfl⟩ := hse e he
      rfl

/-- Address-tree work item used by the C8/C9 witnesses. -/
def c8DemoAddressItem : WorkItem :=
  { tree_account := { merkle_tree := 10, queue := 11, tree_type := TreeType.Address },
    queue_item_data := { hash := 77, index := 3 } }

/-- State-tree work item used by the C8/C9 witnesses. -/
def c8DemoStateItem : WorkItem :=
  { tree_account := { merkle_tree := 20, queue := 21, tree_type := TreeType.State },
    queue_item_data := { hash := 88, index := 4 } }

/-- Address proof returned by the indexer in the C8/C9 witnesses. -/
def c8DemoAddressProof : NewAddressProofWithContext :=
  { low_address_index := 1, low_address_value := 2, low_address_next_index := 3,
    low_address_next_value := 4, low_address_proof := [9, 9], root_seq := 12345 }

/-- State proof returned by the indexer in the C8/C9 witnesses. -/
def c8DemoStateProof : MerkleProof :=
  { hash := 88, leaf_index := 6, proof := [7, 8], root_seq := 54321 }

/-- Indexer outcomes for the C8/C9 witnesses. -/
def c8DemoEnv : ProofFetchEnv :=
  { addressProofs := Except.ok [c8DemoAddressProof],
    stateProofs := Except.ok [c8DemoStateProof] }

/-- Expected proofs vector of the witness run (address entry first even
though the state item comes first in the input). -/
def c9DemoProofs : List Proof :=
  [Proof.addressProof c8DemoAddressProof, Proof.stateProof c8DemoStateProof]

/-- Expected instructions vector of the witness run. -/
def c9DemoInstructions : List Instruction :=
  [Instruction.updateAddressMerkleTree
     (addressInstructionInputs 99 2800 1400 5 c8DemoAddressItem c8DemoAddressProof),
   Instruction.nullify (nullifyInstructionInputs 99 1400 5 c8DemoStateItem c8DemoStateProof)]

/-- Witness for C8 at a concrete input: both aligned pairs of the witness
run carry the prescribed changelog fields. -/
theorem c8_witness :
    changelogSpec 2800 1400 1400 (Proof.addressProof c8DemoAddressProof)
      (Instruction.updateAddressMerkleTree
        (addressInstructionInputs 99 2800 1400 5 c8DemoAddressItem c8DemoAddressProof)) ∧
    changelogSpec 2800 1400 1400 (Proof.stateProof c8DemoStateProof)
      (Instruction.nullify
        (nullifyInstructionInputs 99 1400 5 c8DemoStateItem c8DemoStateProof)) := by
  have hcall : fetch_proofs_and_create_instructions 99 2800 1400 1400 c8DemoEnv 5
      [c8DemoStateItem, c8DemoAddressItem] =
      Except.ok (c9DemoProofs, c9DemoInstructions) := by decide
  have h := c8_theorem 99 2800 1400 1400 c8DemoEnv 5 [c8DemoStateItem, c8DemoAddressItem]
    c9DemoProofs c9DemoInstructions hcall
  exact ⟨h (Proof.addressProof c8DemoAddressProof,
      Instruction.updateAddressMerkleTree
        (addressInstructionInputs 99 2800 1400 5 c8DemoAddressItem c8DemoAddressProof))
      (by decide),
    h (Proof.stateProof c8DemoStateProof,
      Instruction.nullify
        (nullifyInstructionInputs 99 1400 5 c8DemoStateItem c8DemoStateProof))
      (by decide)⟩

/-- Witness for C9 at a concrete input: the witness run returns vectors of
equal length, aligned so each instruction embeds its proof, with the address
entry first although the address item came second. -/
theorem c9_witness :
    c9DemoProofs.length = c9DemoInstructions.length ∧
    proofEmbedded (Proof.addressProof c8DemoAddressProof)
      (Instruction.updateAddressMerkleTree
        (addressInstructionInputs 99 2800 1400 5 c8DemoAddressItem c8DemoAddressProof)) := by
  have hcall : fetch_proofs_and_create_instructions 99 2800 1400 1400 c8DemoEnv 5
      [c8DemoStateItem, c8DemoAddressItem] =
      Except.ok (c9DemoProofs, c9DemoInstructions) := by decide
  have h := c9_theorem 99 2800 1400 1400 c8DemoEnv 5 [c8DemoStateItem, c8DemoAddressItem]
    c9DemoProofs c9DemoInstructions hcall
  exact ⟨h.1, h.2.1 (Proof.addressProof c8DemoAddressProof,
    Instruction.updateAddressMerkleTree
      (addressInstructionInputs 99 2800 1400 5 c8DemoAddressItem c8DemoAddressProof))
    (by decide)⟩

end Forester
